import Mathlib

/-
  Verification development for the snow9s terminal dashboard core.

  The definitions below are a shallow embedding of the Go sources:
  - internal/ui/table.go      (DataTable: filtering, selection, rendering)
  - the ui app file           (App: refresh loop, input modes, commands)
  - internal/config/config.go (Config, MergeOverrides)

  Go strings are modelled as Lean String, Go slices as List, Go int as Int
  (selection indices may go negative before clamping) or Nat where the Go
  value is a length/counter.  Rendering to the terminal is side-effect-free
  state we do not model, except for the pieces the Go code reads back
  (row count, selection, banner text/background).
-/

namespace Snow9s

/-! ## String primitives

The Go code uses strings.ToLower, strings.TrimSpace, strings.Join,
strings.Contains, strings.HasPrefix and strings.Fields.  They are modelled
here structurally over the character list of the string (so that the kernel
can evaluate them on concrete inputs), with Char.toLower / Char.isWhitespace
as the character-level primitives. -/

/-- strings.ToLower. -/
def lowerStr (s : String) : String :=
  String.mk (s.data.map Char.toLower)

/-- Core of strings.TrimSpace: drop whitespace from both ends. -/
def trimChars (l : List Char) : List Char :=
  ((l.dropWhile Char.isWhitespace).reverse.dropWhile Char.isWhitespace).reverse

/-- strings.TrimSpace. -/
def trimStr (s : String) : String :=
  String.mk (trimChars s.data)

/-- strings.Contains: the needle occurs contiguously in the haystack. -/
def hasSub (needle : List Char) : List Char → Bool
  | [] => needle.isEmpty
  | c :: rest => needle.isPrefixOf (c :: rest) || hasSub needle rest

/-- strings.HasPrefix. -/
def hasPrefixStr (s pre : String) : Bool :=
  pre.data.isPrefixOf s.data

/-- Accumulator loop for strings.Fields: split on whitespace runs,
dropping empty pieces. -/
def fieldsAux : List Char → List Char → List String
  | [], acc => if acc.isEmpty then [] else [String.mk acc.reverse]
  | c :: rest, acc =>
    if c.isWhitespace then
      if acc.isEmpty then fieldsAux rest []
      else String.mk acc.reverse :: fieldsAux rest []
    else fieldsAux rest (c :: acc)

/-- strings.Fields. -/
def fieldsOf (s : String) : List String :=
  fieldsAux s.data []

/-! ## Filtering (DataTable.applyFilter, table.go lines 244-266) -/

/-- Case-insensitive joined text of a row: strings.ToLower(strings.Join(cells, " ")). -/
def joinedText (cells : List String) : String :=
  lowerStr (String.intercalate " " cells)

/-- Loop body of DataTable.applyFilter for one row: keep the row when the
normalized filter is empty, otherwise when it occurs as a substring of the
joined lower-cased cell text (strings.Contains). -/
def rowMatches (f : String) (cells : List String) : Bool :=
  f == "" || hasSub f.data (joinedText cells).data

/-- Normalization applied once per applyFilter call:
strings.ToLower(strings.TrimSpace(t.filter)). -/
def normalizeFilter (filter : String) : String :=
  lowerStr (trimStr filter)

/-- DataTable.applyFilter, pure core: the filter string is trimmed and
lower-cased once, then each row of the full set is kept iff it matches. -/
def applyFilter (filter : String) (rows : List (List String)) : List (List String) :=
  rows.filter (fun row => rowMatches (normalizeFilter filter) row)

/-! ## Table state (DataTable, table.go) -/

/-- State of a DataTable, including the selection owned by the underlying
tview table (selRow 0 is the header row; tview selection is a Go int). -/
structure DataTable where
  headers : List String
  rows : List (List String)
  filtered : List (List String)
  filter : String
  statusColumn : Int
  selRow : Int
  selCol : Int
  deriving Repr, DecidableEq

/-- Number of rendered rows, as tview GetRowCount reports it after
DataTable.render: one header row (when any cell was set) plus one row per
filtered entry. -/
def rowCount (t : DataTable) : Nat :=
  if t.headers.isEmpty && t.filtered.isEmpty then 0 else t.filtered.length + 1

/-- DataTable.render, state part (table.go lines 268-308): cells are redrawn
from headers and the filtered snapshot, and when at least one data row exists
the selection is reset to (1, 0). -/
def render (t : DataTable) : DataTable :=
  if 0 < t.filtered.length then { t with selRow := 1, selCol := 0 } else t

/-- DataTable.applyFilter, stateful part: recompute the filtered set from the
full row set and the current filter, then render. -/
def applyFilterTable (t : DataTable) : DataTable :=
  render { t with filtered := applyFilter t.filter t.rows }

/-- DataTable.SetFilter (table.go lines 196-202). -/
def SetFilter (filter : String) (t : DataTable) : DataTable :=
  applyFilterTable { t with filter := filter }

/-- DataTable.SetData (table.go lines 187-194). -/
def SetData (headers : List String) (rows : List (List String)) (t : DataTable) : DataTable :=
  applyFilterTable { t with headers := headers, rows := rows }

/-- DataTable.SetStatusColumn (table.go lines 179-185): store the index and
re-render. -/
def SetStatusColumn (idx : Int) (t : DataTable) : DataTable :=
  render { t with statusColumn := idx }

/-- DataTable.SelectedRow (table.go lines 219-235). -/
def SelectedRow (t : DataTable) : Option (List String) :=
  if t.filtered.isEmpty then none
  else
    let row := if t.selRow ≤ 0 then 1 else t.selRow
    let index := row - 1
    if index < 0 then none
    else (t.filtered).get? index.toNat

/-! ## Selection mutations (App.move / App.page / App.selectRow) -/

/-- App.move (app file lines 418-429): add the delta to the tview selection,
clamp below at 1, then clamp above at GetRowCount()-1. -/
def move (delta : Int) (t : DataTable) : DataTable :=
  let row := t.selRow
  let newRow := row + delta
  let newRow := if newRow < 1 then 1 else newRow
  let newRow := if newRow ≥ (rowCount t : Int) then (rowCount t : Int) - 1 else newRow
  { t with selRow := newRow }

/-- App.page (app file lines 431-447): no-op when at most the header is
rendered; otherwise move by half the rendered row count (header included)
and clamp like move. -/
def page (direction : Int) (t : DataTable) : DataTable :=
  let total : Int := (rowCount t : Int)
  if total ≤ 1 then t
  else
    let pageSize := total / 2
    let newRow := t.selRow + pageSize * direction
    let newRow := if newRow < 1 then 1 else newRow
    let newRow := if newRow ≥ total then total - 1 else newRow
    { t with selRow := newRow }

/-- App.selectRow (app file lines 449-458): clamp the requested row the same
way and select column 0. -/
def selectRow (row : Int) (t : DataTable) : DataTable :=
  let r := if row < 1 then 1 else row
  let r := if r ≥ (rowCount t : Int) then (rowCount t : Int) - 1 else r
  { t with selRow := r, selCol := 0 }

/-! ## Configuration (internal/config/config.go) -/

/-- Config (config.go lines 14-24). -/
structure Config where
  Account : String
  User : String
  Password : String
  PrivateKeyPath : String
  Database : String
  Schema : String
  Warehouse : String
  Context : String
  Debug : Bool
  deriving Repr, DecidableEq

/-- The zero value of Config (Go Config{}). -/
def zeroConfig : Config :=
  { Account := "", User := "", Password := "", PrivateKeyPath := "", Database := ""
    Schema := "", Warehouse := "", Context := "", Debug := false }

/-- MergeOverrides (config.go lines 72-102): each non-empty string field of
the overrides replaces the base field, field by field; the Debug flag is set
when the override sets it.  The Go code mutates a copy of base with one if
per field; since the fields are disjoint this is the same as the record
built field-wise below. -/
def MergeOverrides (base overrides : Config) : Config :=
  { Account := if overrides.Account ≠ "" then overrides.Account else base.Account
    User := if overrides.User ≠ "" then overrides.User else base.User
    Password := if overrides.Password ≠ "" then overrides.Password else base.Password
    PrivateKeyPath :=
      if overrides.PrivateKeyPath ≠ "" then overrides.PrivateKeyPath else base.PrivateKeyPath
    Database := if overrides.Database ≠ "" then overrides.Database else base.Database
    Schema := if overrides.Schema ≠ "" then overrides.Schema else base.Schema
    Warehouse := if overrides.Warehouse ≠ "" then overrides.Warehouse else base.Warehouse
    Context := if overrides.Context ≠ "" then overrides.Context else base.Context
    Debug := if overrides.Debug then true else base.Debug }

/-! ## App model (the ui app file)

The App struct fields that the verified behaviour touches.  Widgets
(header, footer, pages, focus) are stateless from the point of view of the
claims; the error view is modelled by its text and the background style
chosen in setError.  Ghost counters witness fetch activity:
spawnedFetches counts fetch goroutines that passed the admission check but
have not yet executed setLoading(true), inFlight counts goroutines between
setLoading(true) and setLoading(false), and fetchesStarted counts all
invocations that ever passed the admission check.  The split between
admission and setLoading(true) matters: in the source they run in different
goroutines, so several admissions can precede the first setLoading(true). -/

/-- inputMode (app file lines 33-39). -/
inductive InputMode
  | inputNone
  | inputFilter
  | inputCommand
  deriving Repr, DecidableEq

/-- viewKind (app file lines 24-31). -/
inductive ViewKind
  | services
  | pools
  | repos
  | instances
  deriving Repr, DecidableEq

/-- string(viewKind). -/
def viewName : ViewKind → String
  | .services => "Services"
  | .pools => "Pools"
  | .repos => "Repos"
  | .instances => "Instances"

/-- Background styles the error view can take in setError. -/
inductive BannerStyle
  | plain
  | info
  | alarm
  deriving Repr, DecidableEq

/-- The error view state: its text and background colour. -/
structure ErrorBanner where
  text : String
  bg : BannerStyle
  deriving Repr, DecidableEq

/-- App.setError (app file lines 262-273): red background for a non-empty
message unless it is an informational "No items"/"No services" notice. -/
def setError (msg : String) : ErrorBanner :=
  if msg = "" then { text := msg, bg := .plain }
  else if hasPrefixStr msg "No items" || hasPrefixStr msg "No services" then
    { text := msg, bg := .info }
  else { text := msg, bg := .alarm }

/-- viewData (app file lines 41-46). -/
structure ViewData where
  headers : List String
  rows : List (List String)
  statusColumn : Int
  warning : String
  deriving Repr, DecidableEq

/-- Keys the input field done-callback distinguishes. -/
inductive Key
  | enter
  | esc
  deriving Repr, DecidableEq

/-- App state. -/
structure App where
  inputMode : InputMode
  detailVisible : Bool
  helpVisible : Bool
  loading : Bool
  table : DataTable
  banner : ErrorBanner
  view : ViewKind
  activeService : String
  schema : String
  database : String
  spcsSchema : String
  fieldText : String
  spawnedFetches : Nat
  inFlight : Nat
  fetchesStarted : Nat
  pendingAsyncFetches : Nat
  deriving Repr, DecidableEq

/-- App.showError (app file lines 256-260): queue setError on the UI thread. -/
def showErrorApp (msg : String) (a : App) : App :=
  { a with banner := setError msg }

/-- App.fetchCurrentView, caller part (app file lines 216-226): the guards
run in the calling goroutine — a call is dropped while an input mode is
active or the detail overlay is open, and dropped while the loading flag is
already true — and an admitted call merely spawns the fetch goroutine
(line 227).  The loading flag is NOT set here: setLoading(true) runs later,
inside the spawned goroutine, so further calls checked before that point
still observe loading=false. -/
def fetchCurrentView (a : App) : App :=
  if a.inputMode ≠ .inputNone ∨ a.detailVisible then a
  else if a.loading then a
  else { a with spawnedFetches := a.spawnedFetches + 1,
                fetchesStarted := a.fetchesStarted + 1 }

/-- A spawned fetch goroutine reaching setLoading(true) and entering
loadViewData (app file lines 231-232).  setLoading re-checks nothing: it
sets the flag whatever its prior value, and the goroutine proceeds with the
fetch unconditionally.  A no-op when no spawned goroutine is waiting. -/
def beginFetchBody (a : App) : App :=
  if a.spawnedFetches = 0 then a
  else { a with spawnedFetches := a.spawnedFetches - 1,
                loading := true, inFlight := a.inFlight + 1 }

/-- Body of the QueueUpdateDraw closure in App.fetchCurrentView (app file
lines 235-252): on error set the retry banner and leave the table alone; on
success set the warning or clear the banner, then SetStatusColumn and
SetData. -/
def applyFetchCompletion (res : Except String ViewData) (a : App) : App :=
  match res with
  | Except.error e =>
    showErrorApp ("Error fetching " ++ lowerStr (viewName a.view) ++ ": " ++ e
      ++ " (Ctrl+r to retry)") a
  | Except.ok d =>
    let a1 := if d.warning ≠ "" then showErrorApp d.warning a else showErrorApp "" a
    { a1 with table := SetData d.headers d.rows (SetStatusColumn d.statusColumn a1.table) }

/-- A fetch goroutine finishing: setLoading(false) (app file line 233), then
the queued completion closure runs on the UI thread. -/
def finishFetch (res : Except String ViewData) (a : App) : App :=
  applyFetchCompletion res { a with loading := false, inFlight := a.inFlight - 1 }

/-- Events of the refresh machinery, at goroutine-interleaving granularity:
periodic ticker ticks (app file lines 200-214) and out-of-band refresh
requests (Ctrl+r, view switch, schema change) each run the caller part of
fetchCurrentView; goStart is a spawned fetch goroutine getting scheduled up
to setLoading(true); complete is an in-flight fetch finishing. -/
inductive RefreshEvent
  | tick
  | request
  | goStart
  | complete (res : Except String ViewData)

/-- One event of the refresh machinery. -/
def refreshStep (a : App) : RefreshEvent → App
  | .tick => fetchCurrentView a
  | .request => fetchCurrentView a
  | .goStart => beginFetchBody a
  | .complete res => finishFetch res a

/-- Run a sequence of refresh events. -/
def runEvents (a : App) : List RefreshEvent → App
  | [] => a
  | e :: es => runEvents (refreshStep a e) es

/-- The App state right after NewApp/Run wire the widgets (app file lines
111-125): Normal mode, nothing loading, empty table, Services view. -/
def initApp (schema database : String) : App :=
  { inputMode := .inputNone, detailVisible := false, helpVisible := false
    loading := false
    table := { headers := [], rows := [], filtered := [], filter := ""
               statusColumn := -1, selRow := 0, selCol := 0 }
    banner := { text := "", bg := .plain }
    view := .services, activeService := ""
    schema := schema, database := database, spcsSchema := schema
    fieldText := ""
    spawnedFetches := 0, inFlight := 0, fetchesStarted := 0, pendingAsyncFetches := 0 }

/-- The services branch of App.loadViewData (app file lines 651-668), with
the per-service cell construction abstracted into the given row list: zero
rows produce the scoped empty-result warning, otherwise no warning. -/
def servicesViewData (schema : String) (rows : List (List String)) : ViewData :=
  if rows.length = 0 then
    { headers := ["NAMESPACE", "NAME", "STATUS", "POOL", "AGE"], rows := rows
      statusColumn := 2, warning := "No items found in " ++ schema }
  else
    { headers := ["NAMESPACE", "NAME", "STATUS", "POOL", "AGE"], rows := rows
      statusColumn := 2, warning := "" }

/-! ## Commands and view switching (the ui app file) -/

/-- App.setView (app file lines 545-560): reject the instances view without
an active service; otherwise switch the view, clear the table filter and the
input field text, and spawn a background fetchCurrentView goroutine
(recorded as a pending asynchronous invocation). -/
def setView (view : ViewKind) (a : App) : App :=
  if view = .instances ∧ a.activeService = "" then
    showErrorApp "Select a service first to view instances" a
  else
    { a with view := view
             table := SetFilter "" a.table
             fieldText := ""
             pendingAsyncFetches := a.pendingAsyncFetches + 1 }

/-- App.setSchema (app file lines 562-570): ignore blank values, otherwise
store the schema on the config and the provider and call fetchCurrentView
synchronously. -/
def setSchema (schema : String) (a : App) : App :=
  if trimStr schema = "" then a
  else fetchCurrentView { a with schema := schema, spcsSchema := schema }

/-- App.openInstancesView (app file lines 572-584). -/
def openInstancesView (a : App) : App :=
  if a.view ≠ .services then
    showErrorApp "Instances view requires Services selection" a
  else
    match SelectedRow a.table with
    | none => showErrorApp "Select a service first to view instances" a
    | some cells =>
      if cells.length < 2 then
        showErrorApp "Select a service first to view instances" a
      else
        setView .instances { a with activeService := cells.getD 1 "" }

/-- Help text shown by toggleHelp (app file line 769). -/
def helpText : String :=
  "j/k/↓/↑ move  g/G top/bottom  / filter  : cmd  s/p/r views  i instances  b back  enter details  esc clear  ctrl+r refresh  q quit"

/-- App.toggleHelp (app file lines 762-771). -/
def toggleHelp (a : App) : App :=
  if a.helpVisible then
    { showErrorApp "" a with helpVisible := false }
  else
    { showErrorApp helpText a with helpVisible := true }

/-- App.runCommand (app file lines 515-543): dispatch on the lower-cased
first token of the space-separated command. -/
def runCommand (cmd : String) (a : App) : App :=
  if cmd = "" then a
  else
    match fieldsOf cmd with
    | [] => a
    | tok :: rest =>
      match lowerStr tok with
      | "svc" | "service" | "services" => setView .services a
      | "pool" | "pools" | "cp" => setView .pools a
      | "repo" | "repos" | "image" | "images" => setView .repos a
      | "inst" | "instances" => openInstancesView a
      | "ns" | "namespace" | "schema" =>
        match rest with
        | [] => showErrorApp "Usage: :ns <schema>" a
        | arg :: _ => setSchema arg a
      | "help" | "?" => toggleHelp a
      | _ => showErrorApp ("Unknown command: " ++ tok) a

/-- App.completeInput (app file lines 476-513): the committed text is the
trimmed field text; in Command mode Enter runs the command first and only
afterwards is the mode reset to Normal and the field cleared. -/
def completeInput (key : Key) (a : App) : App :=
  let text := trimStr a.fieldText
  match a.inputMode with
  | .inputFilter =>
    let a1 :=
      if key = .esc then { a with fieldText := "", table := SetFilter "" a.table } else a
    if key = .enter ∨ key = .esc then
      { a1 with inputMode := .inputNone }
    else a1
  | .inputCommand =>
    let a1 := if key = .enter then runCommand text a else a
    if key = .enter ∨ key = .esc then
      { a1 with fieldText := "", inputMode := .inputNone }
    else a1
  | .inputNone => a

/-! ## Concrete states used by counterexamples and witnesses -/

/-- A rendered table whose filtered set is empty (e.g. after an empty fetch
result), with the selection on the header boundary. -/
def emptyTable : DataTable :=
  { headers := ["NAME"], rows := [], filtered := [], filter := ""
    statusColumn := -1, selRow := 1, selCol := 0 }

/-- A rendered table with three data rows and the selection on the last. -/
def selTable : DataTable :=
  { headers := ["NAME"], rows := [["alpha"], ["beta"], ["gamma"]]
    filtered := [["alpha"], ["beta"], ["gamma"]], filter := ""
    statusColumn := -1, selRow := 3, selCol := 0 }

/-- A rendered table with three data rows and the selection on the first. -/
def pageTable : DataTable :=
  { headers := ["NAME"], rows := [["alpha"], ["beta"], ["gamma"]]
    filtered := [["alpha"], ["beta"], ["gamma"]], filter := ""
    statusColumn := -1, selRow := 1, selCol := 0 }

/-- Freshly started app. -/
def app0 : App := initApp "PUBLIC" "MYDB"

/-- An app that is in Command mode with the command "ns STAGING" typed and an
active table filter "prod". -/
def cmdApp : App :=
  { initApp "PUBLIC" "MYDB" with
      inputMode := .inputCommand
      fieldText := "ns STAGING"
      table := { headers := ["NAMESPACE", "NAME", "STATUS", "POOL", "AGE"]
                 rows := [["PUBLIC", "alpha", "RUNNING", "cp1", "1d"]]
                 filtered := [["PUBLIC", "alpha", "RUNNING", "cp1", "1d"]]
                 filter := "prod", statusColumn := 2, selRow := 1, selCol := 0 } }

/-- A successful services result with one row and no warning. -/
def okViewData : ViewData :=
  { headers := ["NAMESPACE", "NAME", "STATUS", "POOL", "AGE"]
    rows := [["PUBLIC", "alpha", "RUNNING", "cp1", "1d"]]
    statusColumn := 2, warning := "" }

/-- Base and override configs exercising MergeOverrides. -/
def baseConfig : Config :=
  { Account := "acme", User := "alice", Password := "pw", PrivateKeyPath := ""
    Database := "MYDB", Schema := "PUBLIC", Warehouse := "WH", Context := ""
    Debug := true }

/-- An override config whose string fields are all empty. -/
def overrideConfig : Config :=
  { Account := "", User := "", Password := "", PrivateKeyPath := ""
    Database := "", Schema := "STAGING", Warehouse := "", Context := ""
    Debug := false }

/-! # Theorems -/

/-! ## Helper lemmas -/

/-- Rows all match the empty normalized filter, so filtering keeps everything. -/
theorem filter_empty_keeps_all (rows : List (List String)) :
    rows.filter (fun row => rowMatches "" row) = rows := by
  apply List.filter_eq_self.mpr
  intro a _
  rfl

/-- With a header row rendered, GetRowCount is the filtered length plus one. -/
theorem rowCount_of_headers (t : DataTable) (hh : t.headers ≠ []) :
    rowCount t = t.filtered.length + 1 := by
  unfold rowCount
  have h : t.headers.isEmpty = false := by
    cases hv : t.headers with
    | nil => exact absurd hv hh
    | cons _ _ => rfl
  simp [h]

/-- Selection after App.move, written out. -/
theorem move_selRow (t : DataTable) (delta : Int) :
    (move delta t).selRow =
      if (if t.selRow + delta < 1 then 1 else t.selRow + delta) ≥ (rowCount t : Int)
      then (rowCount t : Int) - 1
      else if t.selRow + delta < 1 then 1 else t.selRow + delta := rfl

/-- Selection after App.selectRow, written out. -/
theorem selectRow_selRow (t : DataTable) (r : Int) :
    (selectRow r t).selRow =
      if (if r < 1 then 1 else r) ≥ (rowCount t : Int) then (rowCount t : Int) - 1
      else if r < 1 then 1 else r := rfl

/-- Selection after App.page when more than the header is rendered. -/
theorem page_selRow (t : DataTable) (dir : Int) (h2 : ¬ ((rowCount t : Int) ≤ 1)) :
    (page dir t).selRow =
      if (if t.selRow + (rowCount t : Int) / 2 * dir < 1 then 1
          else t.selRow + (rowCount t : Int) / 2 * dir) ≥ (rowCount t : Int)
      then (rowCount t : Int) - 1
      else if t.selRow + (rowCount t : Int) / 2 * dir < 1 then 1
           else t.selRow + (rowCount t : Int) / 2 * dir := by
  simp only [page]
  rw [if_neg h2]

/-- App.page does nothing when at most the header is rendered. -/
theorem page_noop (t : DataTable) (dir : Int) (h1 : (rowCount t : Int) ≤ 1) :
    page dir t = t := by
  simp only [page]
  rw [if_pos h1]

/-! ## Claim theorems -/

/-- C1: the code evaluated at the failing interleaving.  Two invocations
whose admission checks both run before either spawned goroutine executes
setLoading(true) — here a periodic tick and a manual refresh request — are
both admitted, and once both goroutines are scheduled two fetches of the
same (current) view are in flight at once, refuting the at-most-one
guarantee.  The admission logic itself is not at fault: in the third trace
the request arrives after the first goroutine has set the loading flag and
is dropped, so only the late placement of setLoading(true) opens the
window. -/
theorem concurrent_fetch_race_eval :
    (runEvents app0 [RefreshEvent.tick, RefreshEvent.request,
        RefreshEvent.goStart, RefreshEvent.goStart]).inFlight = 2
    ∧ (runEvents app0 [RefreshEvent.tick, RefreshEvent.request,
        RefreshEvent.goStart, RefreshEvent.goStart]).loading = true
    ∧ (runEvents app0 [RefreshEvent.tick, RefreshEvent.goStart,
        RefreshEvent.request]).fetchesStarted = 1
    ∧ (runEvents app0 [RefreshEvent.tick, RefreshEvent.goStart,
        RefreshEvent.request]).inFlight = 1 := by
  decide

/-- C2: for every row set R and filter string f, applyFilter(R, f) is a
subsequence of R preserving the original order, and the empty filter keeps
the whole row set. -/
theorem applyFilter_subsequence (rows : List (List String)) (f : String) :
    List.Sublist (applyFilter f rows) rows ∧ applyFilter "" rows = rows := by
  constructor
  · exact List.filter_sublist rows
  · show rows.filter (fun row => rowMatches (normalizeFilter "") row) = rows
    have h : normalizeFilter "" = "" := by decide
    rw [h]
    exact filter_empty_keeps_all rows

/-- C3 counterexample: after a failed fetch, a subsequent successful fetch
that returns zero rows does not clear the banner — it replaces it with the
empty-result notice "No items found in PUBLIC". -/
theorem success_banner_cex :
    (finishFetch (Except.ok (servicesViewData "PUBLIC" []))
        (finishFetch (Except.error "connection refused") app0)).banner.text
      = "No items found in PUBLIC"
    ∧ (finishFetch (Except.ok (servicesViewData "PUBLIC" []))
        (finishFetch (Except.error "connection refused") app0)).banner.text
      ≠ "" := by
  constructor
  · rfl
  · decide

/-- C3 amended: a fetch completing with an error leaves the displayed table
untouched and sets a banner ending in the retry hint; a subsequent
successful fetch clears the banner when its result carries no empty-result
warning — in the services view, whenever at least one row is returned — while
a successful empty result replaces the banner with the scoped informational
notice instead. -/
theorem fetch_error_banner_amended (a : App) (e : String) (d : ViewData)
    (schema : String) (rows : List (List String)) :
    (finishFetch (Except.error e) a).table = a.table
    ∧ (∃ pre, (finishFetch (Except.error e) a).banner.text = pre ++ " (Ctrl+r to retry)")
    ∧ (d.warning = "" →
        (finishFetch (Except.ok d) a).banner = { text := "", bg := .plain })
    ∧ (rows ≠ [] →
        (finishFetch (Except.ok (servicesViewData schema rows)) a).banner
          = { text := "", bg := .plain }) := by
  refine ⟨rfl, ⟨"Error fetching " ++ lowerStr (viewName a.view) ++ ": " ++ e, rfl⟩, ?_, ?_⟩
  · intro h
    simp [finishFetch, applyFetchCompletion, showErrorApp, setError, h]
  · intro hr
    have h : (servicesViewData schema rows).warning = "" := by
      unfold servicesViewData
      have : rows.length ≠ 0 := by simp [List.length_eq_zero, hr]
      simp [this]
    simp [finishFetch, applyFetchCompletion, showErrorApp, setError, h]

/-- C3 witness: the amended banner behaviour evaluated on concrete fetch
results. -/
theorem fetch_error_banner_amended_witness :
    ((finishFetch (Except.ok okViewData) app0).banner = { text := "", bg := .plain })
    ∧ ((finishFetch
          (Except.ok (servicesViewData "PUBLIC" [["PUBLIC", "alpha", "RUNNING", "cp1", "1d"]]))
          app0).banner = { text := "", bg := .plain }) :=
  ⟨(fetch_error_banner_amended app0 "x" okViewData "PUBLIC" []).2.2.1 rfl,
   (fetch_error_banner_amended app0 "x" okViewData "PUBLIC"
      [["PUBLIC", "alpha", "RUNNING", "cp1", "1d"]]).2.2.2 (by decide)⟩

/-- C4 counterexample: with an empty filtered set (and the selection already
at the clamped position 1) a move mutation lands on the header row 0,
violating 1 <= index <= max(1, len(filtered)). -/
theorem selection_bounds_cex :
    ¬ (1 ≤ (move 1 emptyTable).selRow
        ∧ (move 1 emptyTable).selRow ≤ (max 1 emptyTable.filtered.length : Int)) := by
  decide

/-- C4 amended: provided the table has a header row, every move, page or
jump mutation over a nonempty filtered set lands in [1, len(filtered)]
(= [1, max(1, len(filtered))]); over an empty filtered set, move and jump
clamp the selection to the header row 0 while page leaves the state
unchanged. -/
theorem selection_bounds_amended (t : DataTable) (delta dir r : Int)
    (hh : t.headers ≠ []) :
    (t.filtered ≠ [] →
      (1 ≤ (move delta t).selRow ∧ (move delta t).selRow ≤ (t.filtered.length : Int))
      ∧ (1 ≤ (page dir t).selRow ∧ (page dir t).selRow ≤ (t.filtered.length : Int))
      ∧ (1 ≤ (selectRow r t).selRow
          ∧ (selectRow r t).selRow ≤ (t.filtered.length : Int)))
    ∧ (t.filtered = [] →
      (move delta t).selRow = 0 ∧ (selectRow r t).selRow = 0 ∧ page dir t = t) := by
  have hrc := rowCount_of_headers t hh
  constructor
  · intro hne
    have hn : 1 ≤ t.filtered.length := List.length_pos.mpr hne
    have h2 : ¬ ((rowCount t : Int) ≤ 1) := by
      rw [hrc]
      push_cast
      omega
    refine ⟨?_, ?_, ?_⟩
    · rw [move_selRow, hrc]
      push_cast
      split_ifs <;> omega
    · rw [page_selRow t dir h2, hrc]
      push_cast
      split_ifs <;> omega
    · rw [selectRow_selRow, hrc]
      push_cast
      split_ifs <;> omega
  · intro he
    have hl : t.filtered.length = 0 := by simp [he]
    have h1 : (rowCount t : Int) ≤ 1 := by
      rw [hrc, hl]
      norm_num
    refine ⟨?_, ?_, ?_⟩
    · rw [move_selRow, hrc, hl]
      push_cast
      split_ifs <;> omega
    · rw [selectRow_selRow, hrc, hl]
      push_cast
      split_ifs <;> omega
    · exact page_noop t dir h1

/-- C4 witness: the amended bounds evaluated on a three-row table and on an
empty one. -/
theorem selection_bounds_amended_witness :
    (1 ≤ (move 1 pageTable).selRow
      ∧ (move 1 pageTable).selRow ≤ (pageTable.filtered.length : Int))
    ∧ (move 1 emptyTable).selRow = 0 :=
  ⟨((selection_bounds_amended pageTable 1 1 2 (by decide)).1 (by decide)).1,
   ((selection_bounds_amended emptyTable 1 1 2 (by decide)).2 rfl).1⟩

/-- C5: the code evaluated at the failing input.  Committing the command
"ns STAGING" from Command mode changes the schema used by subsequent fetches,
but leaves the active table filter untouched and admits no fetch at all: the
synchronous fetchCurrentView call inside setSchema runs while the input mode
is still Command (completeInput resets the mode only after runCommand), so the
admission guard drops it. -/
theorem nsCommand_dropped_fetch_eval :
    (completeInput Key.enter cmdApp).schema = "STAGING"
    ∧ (completeInput Key.enter cmdApp).spcsSchema = "STAGING"
    ∧ (completeInput Key.enter cmdApp).table.filter = "prod"
    ∧ (completeInput Key.enter cmdApp).fetchesStarted = 0
    ∧ (completeInput Key.enter cmdApp).loading = false
    ∧ (completeInput Key.enter cmdApp).inputMode = InputMode.inputNone := by
  decide

/-- C6 counterexample: the previous selection 3 lies inside the new filtered
range [1,3], so re-clamping would keep it, yet SetFilter resets it to 1. -/
theorem setFilter_selection_cex :
    ¬ (SetFilter "" selTable).selRow
        = min (max selTable.selRow 1) ((applyFilter "" selTable.rows).length : Int) := by
  decide

/-- C6 amended: SetFilter updates only the filter string and the derived
filtered set, and whenever the new filtered set is nonempty it resets the
selection to the first data row (1, 0); only with an empty filtered set is
the selection left where it was. -/
theorem setFilter_effect_amended (t : DataTable) (f : String) :
    SetFilter f t =
      { t with filter := f
               filtered := applyFilter f t.rows
               selRow := if 0 < (applyFilter f t.rows).length then 1 else t.selRow
               selCol := if 0 < (applyFilter f t.rows).length then 0 else t.selCol } := by
  cases t with
  | mk hs rs fd fl sc sr scol =>
    unfold SetFilter applyFilterTable render
    dsimp only
    split <;> rfl

/-- C7 counterexample: with three filtered rows a page-down from row 1 moves
by (3+1)/2 = 2 to row 3, not by max(1, 3/2) = 1 to row 2 as the claim
predicts. -/
theorem page_size_cex :
    ¬ (page 1 pageTable).selRow
        = min (max (pageTable.selRow + 1 * max 1 ((pageTable.filtered.length : Int) / 2)) 1)
            ((pageTable.filtered.length : Int)) := by
  decide

/-- C7 amended: with a header row and a nonempty filtered set, a page
mutation moves the selection by (len(filtered)+1)/2 — half the rendered row
count, header included — and the result is clamped to [1, len(filtered)]. -/
theorem page_moves_half_rendered (t : DataTable) (dir : Int)
    (hh : t.headers ≠ []) (hf : t.filtered ≠ []) :
    (page dir t).selRow =
      min (max (t.selRow + ((t.filtered.length : Int) + 1) / 2 * dir) 1)
        ((t.filtered.length : Int)) := by
  have hrc := rowCount_of_headers t hh
  have hn : 1 ≤ t.filtered.length := List.length_pos.mpr hf
  have h2 : ¬ ((rowCount t : Int) ≤ 1) := by
    rw [hrc]
    push_cast
    omega
  rw [page_selRow t dir h2, hrc]
  push_cast
  split_ifs <;> omega

/-- C7 witness: the amended page formula evaluated on a three-row table. -/
theorem page_moves_half_rendered_witness :
    (page 1 pageTable).selRow =
      min (max (pageTable.selRow + ((pageTable.filtered.length : Int) + 1) / 2 * 1) 1)
        ((pageTable.filtered.length : Int)) :=
  page_moves_half_rendered pageTable 1 (by decide) (by decide)

/-- C8: filtering is idempotent — applying the same filter to an
already-filtered row set changes nothing. -/
theorem applyFilter_idempotent (rows : List (List String)) (f : String) :
    applyFilter f (applyFilter f rows) = applyFilter f rows := by
  unfold applyFilter
  rw [List.filter_filter]
  simp only [Bool.and_self]

/-- C9: a filter consisting only of whitespace is trimmed away before
matching, so it behaves exactly like the empty filter and keeps the whole
row set. -/
theorem applyFilter_whitespace_only (rows : List (List String)) (f : String)
    (h : f.data.all Char.isWhitespace = true) :
    applyFilter f rows = rows := by
  have htrim : trimChars f.data = [] := by
    unfold trimChars
    have h1 : f.data.dropWhile Char.isWhitespace = [] :=
      List.dropWhile_eq_nil_iff.mpr (fun x hx => List.all_eq_true.mp h x hx)
    rw [h1]
    rfl
  have hnorm : normalizeFilter f = "" := by
    unfold normalizeFilter trimStr
    rw [htrim]
    decide
  show rows.filter (fun row => rowMatches (normalizeFilter f) row) = rows
  rw [hnorm]
  exact filter_empty_keeps_all rows

/-- C9 witness: a whitespace-only filter evaluated on a concrete row set. -/
theorem applyFilter_whitespace_only_witness :
    (" \t ".data.all Char.isWhitespace = true)
    ∧ applyFilter " \t " [["alpha", "running"]] = [["alpha", "running"]] :=
  ⟨by decide, applyFilter_whitespace_only [["alpha", "running"]] " \t " (by decide)⟩

/-- C10: MergeOverrides is the identity for the zero-value override config,
every empty override string field leaves the base field unchanged, and the
Debug flag is the disjunction of the two flags, so an override can enable
debug but never disable it. -/
theorem mergeOverrides_props (base o : Config) :
    MergeOverrides base zeroConfig = base
    ∧ (MergeOverrides base o).Debug = (base.Debug || o.Debug)
    ∧ (o.Account = "" → (MergeOverrides base o).Account = base.Account)
    ∧ (o.User = "" → (MergeOverrides base o).User = base.User)
    ∧ (o.Password = "" → (MergeOverrides base o).Password = base.Password)
    ∧ (o.PrivateKeyPath = "" →
        (MergeOverrides base o).PrivateKeyPath = base.PrivateKeyPath)
    ∧ (o.Database = "" → (MergeOverrides base o).Database = base.Database)
    ∧ (o.Schema = "" → (MergeOverrides base o).Schema = base.Schema)
    ∧ (o.Warehouse = "" → (MergeOverrides base o).Warehouse = base.Warehouse)
    ∧ (o.Context = "" → (MergeOverrides base o).Context = base.Context) := by
  refine ⟨?_, ?_, ?_, ?_, ?_, ?_, ?_, ?_, ?_, ?_⟩
  · cases base
    simp [MergeOverrides, zeroConfig]
  · cases hD : o.Debug <;> simp [MergeOverrides, hD]
  all_goals intro h
  all_goals simp [MergeOverrides, h]

/-- C10 witness: MergeOverrides evaluated on concrete base and override
configs, with the empty-field hypotheses discharged. -/
theorem mergeOverrides_props_witness :
    MergeOverrides baseConfig zeroConfig = baseConfig
    ∧ (MergeOverrides baseConfig overrideConfig).Account = baseConfig.Account :=
  ⟨(mergeOverrides_props baseConfig overrideConfig).1,
   (mergeOverrides_props baseConfig overrideConfig).2.2.1 rfl⟩

end Snow9s
